import Mathlib

/-!
# Shallow embedding of the reservation service (`api_handler/index.js`)

This file embeds the reservation booking core of the serverless restaurant
backend: the request handlers `handleCreateReservation`, `handleGetReservations`,
`handleGetTables`, `handleCreateTable` and `handleGetTableById`, together with
the persistent store they read and write.

Modelling choices, each reflecting the JavaScript source:

* The two DynamoDB tables are embedded as two Lean lists inside a `Store`
  value; a scan visits the list in order (so `Items[0]` is the head of the
  filtered list) and a put appends (for reservations, whose generated ids are
  fresh) or replaces by key (for tables).
* DynamoDB compares strings byte-lexicographically in `BETWEEN`; this is
  embedded as `charListLe` on the character lists of the strings.
* JavaScript truthiness on request fields is embedded by `Option` types:
  a missing field is `none`, and the explicit falsy values (`""` for strings,
  `0` for numbers) are tested where the source tests `!field`.
* Each call to an AWS SDK operation can throw; the handler catches this and
  returns a 500 response. A `StoreFaults` record says which of the (up to
  three) store operations of a `POST /reservations` call throws.
* The generated UUID and the `createdAt` timestamp are inputs of the embedded
  handler (`freshId`, `now`), since they come from the environment.
-/

/-- Byte-lexicographic order on character lists: the order DynamoDB uses for
string comparison in `BETWEEN` filter expressions (UTF-8 byte order, which on
code points agrees with code-point order). -/
def charListLe : List Char → List Char → Bool
  | [], _ => true
  | _ :: _, [] => false
  | a :: as, b :: bs => if a < b then true else if b < a then false else charListLe as bs

/-- Comparison `strLe a b` is the DynamoDB string comparison `a <= b`. -/
def strLe (a b : String) : Bool := charListLe a.data b.data

/-- A record of the Tables DynamoDB table.  `minOrder` is optional because
items written by other means may lack the attribute (the read paths apply
`minOrder || 0`). -/
structure Table where
  id : String
  number : Nat
  places : Nat
  isVip : Bool
  minOrder : Option Nat
deriving DecidableEq, Repr

/-- A record of the Reservations DynamoDB table, as written by
`handleCreateReservation`: the start of the slot is stored under the
attribute name `time`. -/
structure Reservation where
  id : String
  tableId : String
  tableNumber : Nat
  clientName : Option String
  phoneNumber : Option String
  username : String
  date : String
  time : String
  slotTimeEnd : String
  createdAt : String
deriving DecidableEq, Repr

/-- The persistent state: the two DynamoDB tables. -/
structure Store where
  tables : List Table
  reservations : List Reservation
deriving DecidableEq, Repr

/-- Which store operations of a `POST /reservations` call throw.  The handler
catches a throw and returns the 500 response. -/
structure StoreFaults where
  failTableScan : Bool
  failReservationScan : Bool
  failPut : Bool
deriving DecidableEq, Repr

/-- All store operations succeed. -/
def noFaults : StoreFaults := ⟨false, false, false⟩

/-- Function `getUsernameFromToken`: reads the cognito:username claim with
`|| null`.  The input is the raw claim value (absent or a string); `|| null`
maps the empty string to `null` as well. -/
def getUsernameFromToken (claim : Option String) : Option String :=
  match claim with
  | none => none
  | some s => if s = "" then none else some s

/-- The body of `POST /reservations` after `JSON.parse`; `none` is an absent
field. -/
structure CreateReservationBody where
  tableNumber : Option Nat
  clientName : Option String
  phoneNumber : Option String
  date : Option String
  slotTimeStart : Option String
  slotTimeEnd : Option String
deriving DecidableEq, Repr

/-- The distinct responses `handleCreateReservation` can produce:
401 Unauthorized; 400 Missing required fields.; 400 Table not found;
400 Table already reserved for the selected time.; 500 Internal Server Error;
200 with the reservation id. -/
inductive CreateReservationResult where
  | unauthorized
  | validationError
  | tableNotFound
  | slotConflict
  | storeUnavailable
  | created (reservationId : String)
deriving DecidableEq, Repr

/-- The scan filter
`tableId = :tableId AND #date = :date AND
 (#time BETWEEN :start AND :end OR :start BETWEEN #time AND slotTimeEnd)`
of `handleCreateReservation`, applied to one stored reservation.  `start` and
`end_` are the requested `slotTimeStart` and `slotTimeEnd`. -/
def conflictFilter (tableId date start end_ : String) (r : Reservation) : Bool :=
  r.tableId == tableId && r.date == date &&
    ((strLe start r.time && strLe r.time end_) ||
     (strLe r.time start && strLe start r.slotTimeEnd))

/-- Handler `handleCreateReservation`: authorization check, required-field check
(JS truthiness), table resolution by `number` (first match of the scan),
conflict scan, then the put of the new reservation record. -/
def handleCreateReservation (st : Store) (claim : Option String)
    (body : CreateReservationBody) (freshId now : String) (faults : StoreFaults) :
    CreateReservationResult × Store :=
  match getUsernameFromToken claim with
  | none => (.unauthorized, st)
  | some username =>
    match body.tableNumber, body.date, body.slotTimeStart, body.slotTimeEnd with
    | some tn, some date, some start, some end_ =>
      if tn = 0 ∨ date = "" ∨ start = "" ∨ end_ = "" then (.validationError, st)
      else if faults.failTableScan then (.storeUnavailable, st)
      else
        match st.tables.filter (fun t => t.number == tn) with
        | [] => (.tableNotFound, st)
        | table :: _ =>
          if faults.failReservationScan then (.storeUnavailable, st)
          else if (st.reservations.filter (conflictFilter table.id date start end_)).length > 0
          then (.slotConflict, st)
          else if faults.failPut then (.storeUnavailable, st)
          else
            (.created freshId,
             { st with reservations := st.reservations ++
                [{ id := freshId, tableId := table.id, tableNumber := table.number,
                   clientName := body.clientName, phoneNumber := body.phoneNumber,
                   username := username, date := date, time := start,
                   slotTimeEnd := end_, createdAt := now }] })
    | _, _, _, _ => (.validationError, st)

/-- One entry of the `GET /reservations` response: the projection built by
`handleGetReservations`; its `slotTimeStart` field is filled from the stored
`time` attribute. -/
structure ReservationView where
  tableNumber : Nat
  clientName : Option String
  phoneNumber : Option String
  date : String
  slotTimeStart : String
  slotTimeEnd : String
deriving DecidableEq, Repr

/-- The responses of `GET /reservations`. -/
inductive GetReservationsResult where
  | unauthorized
  | ok (reservations : List ReservationView)
  | storeUnavailable
deriving DecidableEq, Repr

/-- Handler `handleGetReservations`: authorization check, then a scan of the
Reservations table, filtered by `username = :username` only when the `user`
query parameter is truthy (present and non-empty), then the projection. -/
def handleGetReservations (st : Store) (claim : Option String)
    (userParam : Option String) (failScan : Bool) : GetReservationsResult :=
  match getUsernameFromToken claim with
  | none => .unauthorized
  | some _ =>
    if failScan then .storeUnavailable
    else
      let items :=
        match userParam with
        | none => st.reservations
        | some u =>
          if u = "" then st.reservations
          else st.reservations.filter (fun r => r.username == u)
      .ok (items.map fun r =>
        { tableNumber := r.tableNumber, clientName := r.clientName,
          phoneNumber := r.phoneNumber, date := r.date,
          slotTimeStart := r.time, slotTimeEnd := r.slotTimeEnd })

/-- A JavaScript number as far as this system observes it: `NaN` or an
integer value. -/
inductive JSNum where
  | nan
  | num (v : Int)
deriving DecidableEq, Repr

/-- Value of a list of decimal digit characters. -/
def digitsToNat (l : List Char) : Nat :=
  l.foldl (fun acc c => acc * 10 + (c.toNat - 48)) 0

/-- Model of the JavaScript `Number(s)` coercion restricted to the string
shapes this system stores as ids: the empty string converts to `0`, a
non-empty string of decimal digits converts to the corresponding integer, and
any other string — in particular a version-4 UUID, which contains hyphens —
converts to `NaN`. -/
def jsNumberOfString (s : String) : JSNum :=
  if s = "" then .num 0
  else if s.data.all (fun c => c.isDigit) then .num (digitsToNat s.data)
  else .nan

/-- One entry of the `GET /tables` (and `GET /tables/{tableId}`) response:
`id` is `Number(id)` of the stored string id, `minOrder` is defaulted by
`minOrder || 0`. -/
structure TableView where
  id : JSNum
  number : Nat
  places : Nat
  isVip : Bool
  minOrder : Nat
deriving DecidableEq, Repr

/-- The responses of `GET /tables`. -/
inductive GetTablesResult where
  | unauthorized
  | ok (tables : List TableView)
  | storeUnavailable
deriving DecidableEq, Repr

/-- Handler `handleGetTables`: authorization check, scan, projection with
`id: Number(id)` and `minOrder: minOrder || 0`. -/
def handleGetTables (st : Store) (claim : Option String) (failScan : Bool) :
    GetTablesResult :=
  match getUsernameFromToken claim with
  | none => .unauthorized
  | some _ =>
    if failScan then .storeUnavailable
    else .ok (st.tables.map fun t =>
      { id := jsNumberOfString t.id, number := t.number, places := t.places,
        isVip := t.isVip, minOrder := t.minOrder.getD 0 })

/-- The responses of `GET /tables/{tableId}`. -/
inductive GetTableByIdResult where
  | unauthorized
  | notFound
  | ok (t : TableView)
  | storeUnavailable
deriving DecidableEq, Repr

/-- Handler `handleGetTableById`: authorization check, a key lookup by the path
parameter (a `get` with an undefined key throws and is caught as a 500),
then the same projection as `handleGetTables`. -/
def handleGetTableById (st : Store) (claim : Option String)
    (tableId : Option String) (failGet : Bool) : GetTableByIdResult :=
  match getUsernameFromToken claim with
  | none => .unauthorized
  | some _ =>
    if failGet then .storeUnavailable
    else
      match tableId with
      | none => .storeUnavailable
      | some tid =>
        match st.tables.find? (fun t => t.id == tid) with
        | none => .notFound
        | some t =>
          .ok { id := jsNumberOfString t.id, number := t.number, places := t.places,
                isVip := t.isVip, minOrder := t.minOrder.getD 0 }

/-- The body of `POST /tables` after `JSON.parse`.  The source checks
`typeof number`, `typeof places` and `typeof isVip`, so those are present
exactly when they have the right runtime type. -/
structure CreateTableBody where
  id : Option String
  number : Option Nat
  places : Option Nat
  isVip : Option Bool
  minOrder : Option Nat
deriving DecidableEq, Repr

/-- The responses of `POST /tables`. -/
inductive CreateTableResult where
  | unauthorized
  | invalidData
  | ok (id : String)
  | storeUnavailable
deriving DecidableEq, Repr

/-- Handler `handleCreateTable`: authorization check, type check of the body, id
defaulting by `table.id || uuidv4()` (`genId` is the generated UUID), then a
put keyed on `id` (which replaces any existing item with that key). -/
def handleCreateTable (st : Store) (claim : Option String) (body : CreateTableBody)
    (genId : String) (failPut : Bool) : CreateTableResult × Store :=
  match getUsernameFromToken claim with
  | none => (.unauthorized, st)
  | some _ =>
    match body.number, body.places, body.isVip with
    | some n, some p, some v =>
      let tableId :=
        match body.id with
        | none => genId
        | some s => if s = "" then genId else s
      if failPut then (.storeUnavailable, st)
      else
        let td : Table :=
          { id := tableId, number := n, places := p, isVip := v,
            minOrder := some (body.minOrder.getD 0) }
        (.ok tableId, { st with tables := st.tables.filter (fun t => t.id ≠ tableId) ++ [td] })
    | _, _, _ => (.invalidData, st)

/-! ## Concrete fixtures used by the witness scenarios -/

/-- A concrete table: number 5, four places, not VIP. -/
def tableA : Table :=
  { id := "T1", number := 5, places := 4, isVip := false, minOrder := some 0 }

/-- A concrete stored reservation on `tableA` for `[10:00,11:00)` on 2024-06-01,
made by user `bob`. -/
def resA : Reservation :=
  { id := "R0", tableId := "T1", tableNumber := 5, clientName := some "Bob",
    phoneNumber := some "555-0100", username := "bob", date := "2024-06-01",
    time := "10:00", slotTimeEnd := "11:00", createdAt := "t0" }

/-- A store holding `tableA` and `resA`. -/
def stA : Store := { tables := [tableA], reservations := [resA] }

/-- The body of the concrete scenario request: table 5, 2024-06-01,
`[18:00,19:00)`. -/
def bodyB : CreateReservationBody :=
  ⟨some 5, some "Bob", some "555-0100", some "2024-06-01", some "18:00", some "19:00"⟩

/-- The record the first concrete scenario request writes. -/
def resB : Reservation :=
  { id := "R1", tableId := "T1", tableNumber := 5, clientName := some "Bob",
    phoneNumber := some "555-0100", username := "bob", date := "2024-06-01",
    time := "18:00", slotTimeEnd := "19:00", createdAt := "t1" }

/-- A store holding only `tableA`, with no reservations yet. -/
def stB : Store := { tables := [tableA], reservations := [] }

/-- The store `stB` after the first concrete scenario request succeeded. -/
def stB' : Store := { tables := [tableA], reservations := [resB] }

/-- The overlap predicate C1 ascribes to the code, written from the words of
the claim: request `[a,b)` conflicts with stored `[c,d)` exactly when
`a ≤ d ≤ b` or `c ≤ a ≤ d`. -/
def claimedOverlap (a b c d : String) : Bool :=
  (strLe a d && strLe d b) || (strLe c a && strLe a d)

/-- A stored reservation made by user `alice`. -/
def resC : Reservation :=
  { id := "R7", tableId := "T1", tableNumber := 5, clientName := some "Bob",
    phoneNumber := some "555-0100", username := "alice", date := "2024-06-01",
    time := "18:00", slotTimeEnd := "19:00", createdAt := "t1" }

/-- A store holding `tableA` and the reservation `resC` by `alice`. -/
def stC : Store := { tables := [tableA], reservations := [resC] }

/-- A table whose stored id is a generated version-4 UUID string. -/
def tableD : Table :=
  { id := "3f8a1c2e-9b4d-4e5f-8a6b-0c1d2e3f4a5b", number := 7, places := 2,
    isVip := true, minOrder := none }

/-- A store holding only `tableD`. -/
def stD : Store := { tables := [tableD], reservations := [] }

/-! ## Order lemmas for the embedded string comparison -/

theorem charListLe_refl : ∀ l : List Char, charListLe l l = true
  | [] => rfl
  | a :: as => by simp [charListLe, charListLe_refl as]

theorem charListLe_total : ∀ a b : List Char, charListLe a b = true ∨ charListLe b a = true
  | [], _ => Or.inl rfl
  | _ :: _, [] => Or.inr rfl
  | a :: as, b :: bs => by
    rcases lt_trichotomy a b with hab | hab | hab
    · left; simp [charListLe, hab]
    · subst hab
      rcases charListLe_total as bs with h | h
      · left; simp [charListLe, h]
      · right; simp [charListLe, h]
    · right; simp [charListLe, hab, not_lt.mpr (le_of_lt hab)]

theorem strLe_refl (s : String) : strLe s s = true := charListLe_refl s.data

theorem strLe_total (a b : String) : strLe a b = true ∨ strLe b a = true :=
  charListLe_total a.data b.data

/-! ## C6 -/

/-- C6: `handleCreateReservation` checks authorization before validation: with
no authenticated identity it returns Unauthorized (leaving the store
untouched) no matter which body fields are present, and a ValidationError can
only arise for a request with an authenticated identity. -/
theorem createReservation_auth_before_validation
    (st : Store) (claim : Option String) (body : CreateReservationBody)
    (freshId now : String) (faults : StoreFaults) :
    (getUsernameFromToken claim = none →
      handleCreateReservation st claim body freshId now faults = (.unauthorized, st)) ∧
    ((handleCreateReservation st claim body freshId now faults).1 = .validationError →
      ∃ u, getUsernameFromToken claim = some u) := by
  constructor
  · intro h
    simp [handleCreateReservation, h]
  · intro h
    cases hu : getUsernameFromToken claim with
    | none => simp [handleCreateReservation, hu] at h
    | some u => exact ⟨u, rfl⟩

/-- Witness for C6: a request with no identity and an entirely empty body is
answered Unauthorized, not ValidationError. -/
theorem createReservation_auth_before_validation_witness :
    handleCreateReservation stA none ⟨none, none, none, none, none, none⟩ "R1" "t1" noFaults
      = (.unauthorized, stA) :=
  (createReservation_auth_before_validation stA none ⟨none, none, none, none, none, none⟩
    "R1" "t1" noFaults).1 rfl

/-! ## C5 -/

/-- C5: an authenticated `POST /reservations` in which any of `tableNumber`,
`date`, `slotTimeStart`, `slotTimeEnd` is missing or empty fails with
ValidationError (400, Missing required fields.) and performs no store
write. -/
theorem createReservation_missing_fields
    (st : Store) (claim : Option String) (body : CreateReservationBody)
    (freshId now : String) (faults : StoreFaults) (u : String)
    (hauth : getUsernameFromToken claim = some u)
    (hmiss : body.tableNumber = none ∨
             body.date = none ∨ body.date = some "" ∨
             body.slotTimeStart = none ∨ body.slotTimeStart = some "" ∨
             body.slotTimeEnd = none ∨ body.slotTimeEnd = some "") :
    handleCreateReservation st claim body freshId now faults = (.validationError, st) := by
  obtain ⟨tn, cn, pn, d, s, e⟩ := body
  rcases hmiss with h | h | h | h | h | h | h <;>
    simp only [] at h <;>
    cases tn <;> cases d <;> cases s <;> cases e <;>
    simp_all [handleCreateReservation, hauth]

/-- Witness for C5: an authenticated request missing `slotTimeEnd` is
rejected with ValidationError and the store is unchanged. -/
theorem createReservation_missing_fields_witness :
    handleCreateReservation stA (some "bob")
      ⟨some 5, some "Bob", some "555-0100", some "2024-06-01", some "10:30", none⟩
      "R1" "t1" noFaults = (.validationError, stA) :=
  createReservation_missing_fields stA (some "bob")
    ⟨some 5, some "Bob", some "555-0100", some "2024-06-01", some "10:30", none⟩
    "R1" "t1" noFaults "bob" (by decide)
    (Or.inr (Or.inr (Or.inr (Or.inr (Or.inr (Or.inl rfl))))))

/-! ## C4 -/

/-- C4: an authenticated, validated `POST /reservations` whose `tableNumber`
matches zero tables in the table store fails with TableNotFound (400, Table
not found) and performs no write to the reservation store. -/
theorem createReservation_table_not_found
    (st : Store) (claim : Option String) (body : CreateReservationBody)
    (freshId now : String) (faults : StoreFaults)
    (u : String) (tn : Nat) (date start end_ : String)
    (hauth : getUsernameFromToken claim = some u)
    (htn : body.tableNumber = some tn) (htn0 : tn ≠ 0)
    (hd : body.date = some date) (hd0 : date ≠ "")
    (hs : body.slotTimeStart = some start) (hs0 : start ≠ "")
    (he : body.slotTimeEnd = some end_) (he0 : end_ ≠ "")
    (hscan : faults.failTableScan = false)
    (hmatch : st.tables.filter (fun t => t.number == tn) = []) :
    handleCreateReservation st claim body freshId now faults = (.tableNotFound, st) := by
  simp [handleCreateReservation, hauth, htn, hd, hs, he, htn0, hd0, hs0, he0, hscan, hmatch]

/-- Witness for C4: a request for table number 9, which no table has, is
rejected with TableNotFound and the store is unchanged. -/
theorem createReservation_table_not_found_witness :
    handleCreateReservation stA (some "bob")
      ⟨some 9, some "Bob", some "555-0100", some "2024-06-01", some "10:30", some "10:45"⟩
      "R1" "t1" noFaults = (.tableNotFound, stA) :=
  createReservation_table_not_found stA (some "bob")
    ⟨some 9, some "Bob", some "555-0100", some "2024-06-01", some "10:30", some "10:45"⟩
    "R1" "t1" noFaults "bob" 9 "2024-06-01" "10:30" "10:45"
    (by decide) rfl (by decide) rfl (by decide) rfl (by decide) rfl (by decide)
    rfl (by decide)

/-! ## C3 -/

/-- C3: intervals that merely touch at an endpoint conflict: an authenticated,
validated request whose `slotTimeStart` equals the `slotTimeEnd` of an existing
reservation for the resolved table and the same date is rejected with
SlotConflict (and the store is unchanged). -/
theorem createReservation_touching_endpoint_conflict
    (st : Store) (claim : Option String) (body : CreateReservationBody)
    (freshId now : String) (faults : StoreFaults)
    (u : String) (tn : Nat) (date start end_ : String) (table : Table) (rest : List Table)
    (r : Reservation)
    (hauth : getUsernameFromToken claim = some u)
    (htn : body.tableNumber = some tn) (htn0 : tn ≠ 0)
    (hd : body.date = some date) (hd0 : date ≠ "")
    (hs : body.slotTimeStart = some start) (hs0 : start ≠ "")
    (he : body.slotTimeEnd = some end_) (he0 : end_ ≠ "")
    (hscan : faults.failTableScan = false)
    (hresscan : faults.failReservationScan = false)
    (hmatch : st.tables.filter (fun t => t.number == tn) = table :: rest)
    (hr : r ∈ st.reservations)
    (hrtid : r.tableId = table.id) (hrdate : r.date = date)
    (hwf : strLe r.time r.slotTimeEnd = true)
    (hstart : start = r.slotTimeEnd) :
    handleCreateReservation st claim body freshId now faults = (.slotConflict, st) := by
  have hfil : conflictFilter table.id date start end_ r = true := by
    simp [conflictFilter, hrtid, hrdate, hstart, hwf, strLe_refl]
  have hmem : r ∈ st.reservations.filter (conflictFilter table.id date start end_) :=
    List.mem_filter.mpr ⟨hr, hfil⟩
  have hlen : 0 < (st.reservations.filter (conflictFilter table.id date start end_)).length :=
    List.length_pos.mpr (List.ne_nil_of_mem hmem)
  simp [handleCreateReservation, hauth, htn, hd, hs, he, htn0, hd0, hs0, he0,
        hscan, hresscan, hmatch, hlen]

/-- Witness for C3: with the existing reservation `[10:00,11:00)` on table 5,
a request for `[11:00,12:00)` on the same date is rejected with
SlotConflict. -/
theorem createReservation_touching_endpoint_conflict_witness :
    handleCreateReservation stA (some "bob")
      ⟨some 5, some "Bob", some "555-0100", some "2024-06-01", some "11:00", some "12:00"⟩
      "R1" "t1" noFaults = (.slotConflict, stA) :=
  createReservation_touching_endpoint_conflict stA (some "bob")
    ⟨some 5, some "Bob", some "555-0100", some "2024-06-01", some "11:00", some "12:00"⟩
    "R1" "t1" noFaults "bob" 5 "2024-06-01" "11:00" "12:00" tableA [] resA
    (by decide) rfl (by decide) rfl (by decide) rfl (by decide) rfl (by decide)
    rfl rfl (by decide) (by decide) (by decide) (by decide) (by decide) (by decide)

/-! ## C9 -/

/-- C9: `clientName` and `phoneNumber` are not required: an authenticated
request with the four required fields present and non-empty, a resolvable
table and no slot conflict succeeds even with both contact fields absent, and
the stored reservation record carries them as absent. -/
theorem createReservation_contact_fields_optional
    (st : Store) (claim : Option String) (body : CreateReservationBody)
    (freshId now : String)
    (u : String) (tn : Nat) (date start end_ : String) (table : Table) (rest : List Table)
    (hauth : getUsernameFromToken claim = some u)
    (htn : body.tableNumber = some tn) (htn0 : tn ≠ 0)
    (hd : body.date = some date) (hd0 : date ≠ "")
    (hs : body.slotTimeStart = some start) (hs0 : start ≠ "")
    (he : body.slotTimeEnd = some end_) (he0 : end_ ≠ "")
    (hclient : body.clientName = none) (hphone : body.phoneNumber = none)
    (hmatch : st.tables.filter (fun t => t.number == tn) = table :: rest)
    (hnoconf : st.reservations.filter (conflictFilter table.id date start end_) = []) :
    handleCreateReservation st claim body freshId now noFaults =
      (.created freshId,
       { st with reservations := st.reservations ++
          [{ id := freshId, tableId := table.id, tableNumber := table.number,
             clientName := none, phoneNumber := none, username := u, date := date,
             time := start, slotTimeEnd := end_, createdAt := now }] }) := by
  simp [handleCreateReservation, hauth, htn, hd, hs, he, htn0, hd0, hs0, he0,
        hclient, hphone, hmatch, hnoconf, noFaults]

/-- Witness for C9: a request with no `clientName` and no `phoneNumber` for a
free slot `[12:00,13:00)` succeeds and stores the record without those
fields. -/
theorem createReservation_contact_fields_optional_witness :
    handleCreateReservation stA (some "bob")
      ⟨some 5, none, none, some "2024-06-01", some "12:00", some "13:00"⟩
      "R1" "t1" noFaults =
      (.created "R1",
       { stA with reservations := stA.reservations ++
          [{ id := "R1", tableId := "T1", tableNumber := 5,
             clientName := none, phoneNumber := none, username := "bob",
             date := "2024-06-01", time := "12:00", slotTimeEnd := "13:00",
             createdAt := "t1" }] }) :=
  createReservation_contact_fields_optional stA (some "bob")
    ⟨some 5, none, none, some "2024-06-01", some "12:00", some "13:00"⟩
    "R1" "t1" "bob" 5 "2024-06-01" "12:00" "13:00" tableA []
    (by decide) rfl (by decide) rfl (by decide) rfl (by decide) rfl (by decide)
    rfl rfl (by decide) (by decide)

/-! ## C1 -/

/-- Counterexample to C1 as stated: with stored interval `[c,d) = [10:15,11:00)`
and requested interval `[a,b) = [10:00,10:30)` on the same table and date, the
code reports SlotConflict although the claimed predicate
`a ≤ d ≤ b OR c ≤ a ≤ d` is false (the first disjunct of the code tests the stored
START `c` against `[a,b]`, not the stored end `d`). -/
theorem createReservation_conflict_claim_counterexample :
    ((handleCreateReservation
        { tables := [{ id := "T1", number := 5, places := 4, isVip := false, minOrder := some 0 }],
          reservations :=
            [{ id := "R0", tableId := "T1", tableNumber := 5,
               clientName := none, phoneNumber := none, username := "alice",
               date := "2024-06-01", time := "10:15", slotTimeEnd := "11:00",
               createdAt := "t0" }] }
        (some "bob")
        ⟨some 5, none, none, some "2024-06-01", some "10:00", some "10:30"⟩
        "R1" "t1" noFaults).1 = CreateReservationResult.slotConflict) ∧
    claimedOverlap "10:00" "10:30" "10:15" "11:00" = false := by
  decide

/-- C1 (amended): for a resolved table and given date, an authenticated,
validated request `[a,b)` is rejected with SlotConflict exactly when some
stored reservation `[c,d)` on that table and date satisfies
`a ≤ c ≤ b` OR `c ≤ a ≤ d`, times compared as strings. -/
theorem createReservation_conflict_characterization
    (st : Store) (claim : Option String) (body : CreateReservationBody)
    (freshId now : String)
    (u : String) (tn : Nat) (date start end_ : String) (table : Table) (rest : List Table)
    (hauth : getUsernameFromToken claim = some u)
    (htn : body.tableNumber = some tn) (htn0 : tn ≠ 0)
    (hd : body.date = some date) (hd0 : date ≠ "")
    (hs : body.slotTimeStart = some start) (hs0 : start ≠ "")
    (he : body.slotTimeEnd = some end_) (he0 : end_ ≠ "")
    (hmatch : st.tables.filter (fun t => t.number == tn) = table :: rest) :
    (handleCreateReservation st claim body freshId now noFaults).1
        = CreateReservationResult.slotConflict ↔
      ∃ r ∈ st.reservations, r.tableId = table.id ∧ r.date = date ∧
        ((strLe start r.time = true ∧ strLe r.time end_ = true) ∨
         (strLe r.time start = true ∧ strLe start r.slotTimeEnd = true)) := by
  have hred : (handleCreateReservation st claim body freshId now noFaults).1
      = if (st.reservations.filter (conflictFilter table.id date start end_)).length > 0
        then CreateReservationResult.slotConflict else .created freshId := by
    simp [handleCreateReservation, hauth, htn, hd, hs, he, htn0, hd0, hs0, he0, hmatch, noFaults]
    split <;> rfl
  have hiff : (st.reservations.filter (conflictFilter table.id date start end_)).length > 0 ↔
      ∃ r ∈ st.reservations, r.tableId = table.id ∧ r.date = date ∧
        ((strLe start r.time = true ∧ strLe r.time end_ = true) ∨
         (strLe r.time start = true ∧ strLe start r.slotTimeEnd = true)) := by
    rw [gt_iff_lt, List.length_pos_iff_exists_mem]
    constructor
    · rintro ⟨r, hr⟩
      rw [List.mem_filter] at hr
      obtain ⟨hmemr, hfil⟩ := hr
      simp only [conflictFilter, Bool.and_eq_true, Bool.or_eq_true, beq_iff_eq] at hfil
      exact ⟨r, hmemr, hfil.1.1, hfil.1.2, hfil.2⟩
    · rintro ⟨r, hmemr, h1, h2, h3⟩
      refine ⟨r, List.mem_filter.mpr ⟨hmemr, ?_⟩⟩
      simp only [conflictFilter, Bool.and_eq_true, Bool.or_eq_true, beq_iff_eq]
      exact ⟨⟨h1, h2⟩, h3⟩
  by_cases hc : (st.reservations.filter (conflictFilter table.id date start end_)).length > 0
  · rw [hred, if_pos hc]
    exact iff_of_true rfl (hiff.mp hc)
  · rw [hred, if_neg hc]
    exact iff_of_false (by simp) (fun hex => hc (hiff.mpr hex))

/-- Witness for C1 (amended): with the existing reservation `[10:00,11:00)` on
table 5, the request `[10:30,10:45)` is rejected with SlotConflict. -/
theorem createReservation_conflict_characterization_witness :
    (handleCreateReservation stA (some "bob")
      ⟨some 5, some "Bob", some "555-0100", some "2024-06-01", some "10:30", some "10:45"⟩
      "R1" "t1" noFaults).1 = CreateReservationResult.slotConflict :=
  (createReservation_conflict_characterization stA (some "bob")
    ⟨some 5, some "Bob", some "555-0100", some "2024-06-01", some "10:30", some "10:45"⟩
    "R1" "t1" "bob" 5 "2024-06-01" "10:30" "10:45" tableA []
    (by decide) rfl (by decide) rfl (by decide) rfl (by decide) rfl (by decide)
    (by decide)).mpr
    ⟨resA, by decide, by decide, by decide, Or.inr ⟨by decide, by decide⟩⟩

/-! ## C7 -/

/-- Case analysis of `handleCreateReservation`: either it succeeds, appending
exactly one record carrying the generated id, or it leaves the store unchanged
and does not report success. -/
theorem createReservation_cases
    (st : Store) (claim : Option String) (body : CreateReservationBody)
    (freshId now : String) (faults : StoreFaults) :
    (∃ r : Reservation, r.id = freshId ∧
       handleCreateReservation st claim body freshId now faults =
         (.created freshId, { st with reservations := st.reservations ++ [r] })) ∨
    ((handleCreateReservation st claim body freshId now faults).2 = st ∧
     ∀ rid, (handleCreateReservation st claim body freshId now faults).1 ≠ .created rid) := by
  obtain ⟨tn0, cn, pn, d0, s0, e0⟩ := body
  unfold handleCreateReservation
  cases getUsernameFromToken claim with
  | none => right; simp
  | some u =>
    cases tn0 with
    | none => right; simp
    | some tn =>
      cases d0 with
      | none => right; simp
      | some d =>
        cases s0 with
        | none => right; simp
        | some s =>
          cases e0 with
          | none => right; simp
          | some e =>
            dsimp only
            split
            · right; simp
            · split
              · right; simp
              · split
                · right; simp
                · split
                  · right; simp
                  · split
                    · right; simp
                    · split
                      · right; simp
                      · left; exact ⟨_, rfl, rfl⟩

/-- C7: `handleCreateReservation` performs exactly one write on success — the
new record, whose generated id is the one returned — and leaves the store
untouched on every failure path (Unauthorized, ValidationError, TableNotFound,
SlotConflict, StoreUnavailable). -/
theorem createReservation_write_discipline
    (st : Store) (claim : Option String) (body : CreateReservationBody)
    (freshId now : String) (faults : StoreFaults) :
    (∀ rid, (handleCreateReservation st claim body freshId now faults).1 = .created rid →
        rid = freshId ∧
        ∃ r : Reservation, r.id = freshId ∧
          (handleCreateReservation st claim body freshId now faults).2 =
            { st with reservations := st.reservations ++ [r] }) ∧
    ((∀ rid, (handleCreateReservation st claim body freshId now faults).1 ≠ .created rid) →
      (handleCreateReservation st claim body freshId now faults).2 = st) := by
  rcases createReservation_cases st claim body freshId now faults with ⟨r, hrid, heq⟩ | ⟨h2, h1⟩
  · constructor
    · intro rid hres
      rw [heq] at hres
      simp only [CreateReservationResult.created.injEq] at hres
      exact ⟨hres.symm, r, hrid, by rw [heq]⟩
    · intro hne
      exact absurd (by rw [heq]) (hne freshId)
  · constructor
    · intro rid hres
      exact absurd hres (h1 rid)
    · intro _
      exact h2

/-- Witness for C7: on a successful concrete request the returned id is the
generated one and the store gains exactly that one record. -/
theorem createReservation_write_discipline_witness :
    "R1" = "R1" ∧
    ∃ r : Reservation, r.id = "R1" ∧
      (handleCreateReservation stA (some "bob")
        ⟨some 5, none, none, some "2024-06-01", some "12:00", some "13:00"⟩
        "R1" "t1" noFaults).2 =
      { stA with reservations := stA.reservations ++ [r] } :=
  (createReservation_write_discipline stA (some "bob")
    ⟨some 5, none, none, some "2024-06-01", some "12:00", some "13:00"⟩
    "R1" "t1" noFaults).1 "R1" (by decide)

/-! ## C2 -/

/-- Inversion of a successful `handleCreateReservation`: success pins down the
authenticated user, the validated body fields, the resolved table (head of the
table scan), the absence of conflicts, and the exact post-state. -/
theorem createReservation_created_inv
    (st st' : Store) (claim : Option String) (body : CreateReservationBody)
    (freshId now rid : String) (faults : StoreFaults)
    (h : handleCreateReservation st claim body freshId now faults = (.created rid, st')) :
    ∃ u tn date start end_ table rest,
      getUsernameFromToken claim = some u ∧
      body.tableNumber = some tn ∧ body.date = some date ∧
      body.slotTimeStart = some start ∧ body.slotTimeEnd = some end_ ∧
      tn ≠ 0 ∧ date ≠ "" ∧ start ≠ "" ∧ end_ ≠ "" ∧
      st.tables.filter (fun t => t.number == tn) = table :: rest ∧
      st.reservations.filter (conflictFilter table.id date start end_) = [] ∧
      rid = freshId ∧
      st' = { st with reservations := st.reservations ++
        [{ id := freshId, tableId := table.id, tableNumber := table.number,
           clientName := body.clientName, phoneNumber := body.phoneNumber,
           username := u, date := date, time := start,
           slotTimeEnd := end_, createdAt := now }] } := by
  obtain ⟨tn0, cn, pn, d0, s0, e0⟩ := body
  unfold handleCreateReservation at h
  cases hu : getUsernameFromToken claim <;> rw [hu] at h
  · exact absurd h (by simp)
  · cases tn0 with
    | none => exact absurd h (by simp)
    | some tn =>
      cases d0 with
      | none => exact absurd h (by simp)
      | some date =>
        cases s0 with
        | none => exact absurd h (by simp)
        | some start =>
          cases e0 with
          | none => exact absurd h (by simp)
          | some end_ =>
            dsimp only at h
            split at h
            · exact absurd h (by simp)
            · split at h
              · exact absurd h (by simp)
              · split at h
                · exact absurd h (by simp)
                · split at h
                  · exact absurd h (by simp)
                  · split at h
                    · exact absurd h (by simp)
                    · split at h
                      · exact absurd h (by simp)
                      · rename_i u hval hscan x table rest hmatch hresscan hconf hput
                        injection h with hres hst
                        injection hres with hfresh
                        push_neg at hval
                        obtain ⟨htn0, hd0, hs0, he0⟩ := hval
                        refine ⟨u, tn, date, start, end_, table, rest,
                          rfl, rfl, rfl, rfl, rfl, htn0, hd0, hs0, he0, hmatch, ?_, hfresh.symm, hst.symm⟩
                        have : (List.filter (conflictFilter table.id date start end_) st.reservations).length = 0 :=
                          Nat.eq_zero_of_not_pos hconf
                        exact List.length_eq_zero.mp this

/-- C2: for two sequential requests for the same table number and the same
date whose intervals overlap (or merely touch: `a1 ≤ b2` and `a2 ≤ b1` as
strings), if the first succeeds and writes its record, the second —
authenticated and with non-empty times — observes that record in the conflict
scan and fails with SlotConflict, leaving the store unchanged; in particular
repeating an identical successful request fails with SlotConflict. -/
theorem createReservation_sequential_no_double_booking
    (st st' : Store) (claim1 claim2 : Option String) (body1 body2 : CreateReservationBody)
    (id1 id2 now1 now2 rid : String) (a1 b1 a2 b2 u2 : String)
    (h1 : handleCreateReservation st claim1 body1 id1 now1 noFaults = (.created rid, st'))
    (ha1 : body1.slotTimeStart = some a1) (hb1 : body1.slotTimeEnd = some b1)
    (hauth2 : getUsernameFromToken claim2 = some u2)
    (htn : body2.tableNumber = body1.tableNumber)
    (hdate : body2.date = body1.date)
    (ha2 : body2.slotTimeStart = some a2) (hb2 : body2.slotTimeEnd = some b2)
    (ha2ne : a2 ≠ "") (hb2ne : b2 ≠ "")
    (hov1 : strLe a1 b2 = true) (hov2 : strLe a2 b1 = true) :
    handleCreateReservation st' claim2 body2 id2 now2 noFaults = (.slotConflict, st') := by
  obtain ⟨u, tn, date, start, end_, table, rest, hu, htn1, hd1, hs1, he1,
    htn0, hd0, hs0, he0, hmatch, hempty, hrid, hst'⟩ :=
    createReservation_created_inv st st' claim1 body1 id1 now1 rid noFaults h1
  rw [hs1] at ha1
  rw [he1] at hb1
  injection ha1 with ha1e
  injection hb1 with hb1e
  subst ha1e hb1e
  subst hst'
  have hfilnew : conflictFilter table.id date a2 b2
      { id := id1, tableId := table.id, tableNumber := table.number,
        clientName := body1.clientName, phoneNumber := body1.phoneNumber,
        username := u, date := date, time := start,
        slotTimeEnd := end_, createdAt := now1 } = true := by
    rcases strLe_total a2 start with hc | hc <;> simp [conflictFilter, hc, hov1, hov2]
  simp [handleCreateReservation, hauth2, htn.trans htn1, hdate.trans hd1, ha2, hb2,
        htn0, hd0, ha2ne, hb2ne, hmatch, noFaults]
  exact fun _ => hfilnew

/-- Witness for C2: the concrete scenario — table 5 is booked for
`[18:00,19:00)` on 2024-06-01 by `bob`; repeating the identical request is
rejected with SlotConflict and the store is unchanged. -/
theorem createReservation_sequential_no_double_booking_witness :
    handleCreateReservation stB' (some "bob") bodyB "R2" "t2" noFaults
      = (.slotConflict, stB') :=
  createReservation_sequential_no_double_booking stB stB' (some "bob") (some "bob")
    bodyB bodyB "R1" "R2" "t1" "t2" "R1" "18:00" "19:00" "18:00" "19:00" "bob"
    (by decide) rfl rfl (by decide) rfl rfl rfl rfl
    (by decide) (by decide) (by decide) (by decide)

/-! ## C8 -/

/-- Counterexample to C8 as stated: with the user query parameter present but
equal to the empty string, the handler returns ALL reservations (JS truthiness
skips the filter) — here the one made by `alice` — although no stored
reservation has username `""`, so the response is not "exactly the
reservations whose username equals the parameter". -/
theorem getReservations_empty_user_param_counterexample :
    handleGetReservations stC (some "reader") (some "") false =
      .ok [{ tableNumber := 5, clientName := some "Bob", phoneNumber := some "555-0100",
             date := "2024-06-01", slotTimeStart := "18:00", slotTimeEnd := "19:00" }] ∧
    stC.reservations.filter (fun r => r.username == "") = [] := by
  decide

/-- C8 (amended): for every store, `GET /reservations` with a NON-EMPTY `user`
parameter `u` returns exactly the reservations whose `username` equals `u`,
and with no `user` parameter returns all reservations; each entry is the
projection whose `slotTimeStart` is taken from the stored `time` field. -/
theorem getReservations_filter_and_projection
    (st : Store) (claim : Option String) (u uname : String)
    (hauth : getUsernameFromToken claim = some uname) :
    (u ≠ "" →
      handleGetReservations st claim (some u) false =
        .ok ((st.reservations.filter (fun r => r.username == u)).map fun r =>
          { tableNumber := r.tableNumber, clientName := r.clientName,
            phoneNumber := r.phoneNumber, date := r.date,
            slotTimeStart := r.time, slotTimeEnd := r.slotTimeEnd })) ∧
    handleGetReservations st claim none false =
      .ok (st.reservations.map fun r =>
        { tableNumber := r.tableNumber, clientName := r.clientName,
          phoneNumber := r.phoneNumber, date := r.date,
          slotTimeStart := r.time, slotTimeEnd := r.slotTimeEnd }) := by
  constructor
  · intro hu
    simp [handleGetReservations, hauth, hu]
  · simp [handleGetReservations, hauth]

/-- Witness for C8 (amended): filtering by `alice` returns exactly the
projection of the reservations made by `alice`. -/
theorem getReservations_filter_and_projection_witness :
    handleGetReservations stC (some "reader") (some "alice") false =
      .ok ((stC.reservations.filter (fun r => r.username == "alice")).map fun r =>
        { tableNumber := r.tableNumber, clientName := r.clientName,
          phoneNumber := r.phoneNumber, date := r.date,
          slotTimeStart := r.time, slotTimeEnd := r.slotTimeEnd }) :=
  (getReservations_filter_and_projection stC (some "reader") "alice" "reader"
    (by decide)).1 (by decide)

/-! ## C10 -/

/-- C10: the table read endpoints return `Number(id)` of the stored string id,
so any table whose id is not a numeric string — in particular one created
without a caller-supplied id, which gets a generated UUID — is reported with
id `NaN` rather than the stored string: `GET /tables` lists it with id `NaN`,
`GET /tables/{tableId}` returns it with id `NaN`, and `POST /tables` without
an id stores the generated (UUID) string as the id. -/
theorem table_id_coerced_to_number
    (st : Store) (claim : Option String) (u : String) (t : Table)
    (hauth : getUsernameFromToken claim = some u)
    (hnan : jsNumberOfString t.id = JSNum.nan) :
    (t ∈ st.tables → ∃ l, handleGetTables st claim false = .ok l ∧
        ({ id := JSNum.nan, number := t.number, places := t.places,
           isVip := t.isVip, minOrder := t.minOrder.getD 0 } : TableView) ∈ l) ∧
    (st.tables.find? (fun x => x.id == t.id) = some t →
      handleGetTableById st claim (some t.id) false =
        .ok { id := JSNum.nan, number := t.number, places := t.places,
              isVip := t.isVip, minOrder := t.minOrder.getD 0 }) ∧
    (∀ body : CreateTableBody, ∀ n p : Nat, ∀ v : Bool,
      body.id = none → body.number = some n → body.places = some p →
      body.isVip = some v →
      (handleCreateTable st claim body t.id false).1 = .ok t.id ∧
      ({ id := t.id, number := n, places := p, isVip := v,
         minOrder := some (body.minOrder.getD 0) } : Table)
        ∈ (handleCreateTable st claim body t.id false).2.tables) := by
  refine ⟨?_, ?_, ?_⟩
  · intro hmem
    refine ⟨st.tables.map (fun x =>
      { id := jsNumberOfString x.id, number := x.number, places := x.places,
        isVip := x.isVip, minOrder := x.minOrder.getD 0 }), ?_, ?_⟩
    · simp [handleGetTables, hauth]
    · exact List.mem_map.mpr ⟨t, hmem, by rw [hnan]⟩
  · intro hfind
    simp [handleGetTableById, hauth, hfind, hnan]
  · intro body n p v hid hn hp hv
    constructor
    · simp [handleCreateTable, hauth, hn, hp, hv, hid]
    · simp [handleCreateTable, hauth, hn, hp, hv, hid]

/-- Witness for C10: the UUID-id table `tableD` is listed by `GET /tables`
with id `NaN`. -/
theorem table_id_coerced_to_number_witness :
    ∃ l, handleGetTables stD (some "bob") false = .ok l ∧
      ({ id := JSNum.nan, number := 7, places := 2, isVip := true,
         minOrder := 0 } : TableView) ∈ l :=
  (table_id_coerced_to_number stD (some "bob") "bob" tableD
    (by decide) (by decide)).1 (by decide)
